import Mathlib

/-!
Verification of the quality-gated research-to-blog pipeline: a shallow
embedding of the quality-gate engine (`app/tools/quality.py`), the judge
(`app/agents/judge.py`), the citation mapper and validator
(`app/tools/citation.py`), source deduplication (`app/tools/scrape.py`)
and the orchestrator's retry loop (`app/graph/workflow.py`).

Python strings are modelled as `List Char`, Python floats as `ℚ` (the
threshold comparisons in the code are exact comparisons, and no claim
depends on float rounding).  The record types of `app/data/models.py`
(a module whose source is not in the repository snapshot; only its users
are) are modelled from the spec's data-model section and from how the
fields are used by the code in `src/`.
-/

namespace R2B

/-- Python strings, modelled as lists of characters. -/
abbrev PyStr := List Char

/-- Literal Python string. -/
def pys (s : String) : PyStr := s.data

/-- `str.lower()` (ASCII case mapping; all strings involved are ASCII). -/
def lowerStr (l : PyStr) : PyStr := l.map Char.toLower

/-- Python's `needle in hay` substring test. -/
def listContains (needle : PyStr) : PyStr → Bool
  | [] => needle.isEmpty
  | c :: t => needle.isPrefixOf (c :: t) || listContains needle t

/-- Decimal digits of a natural number, as in Python `str(n)`. -/
def natChars (n : Nat) : PyStr := (Nat.repr n).data

/-- Decimal digits of an integer, as in Python `str(i)`. -/
def intChars (i : ℤ) : PyStr := (Int.repr i).data

/-- Floor of a rational as an integer. -/
def ratFloor (x : ℚ) : ℤ := Int.fdiv x.num x.den

/-- Round half to even, as Python float formatting does (the code's floats
are modelled as exact rationals, so rounding is exact here). -/
def rhe (x : ℚ) : ℤ :=
  let f := ratFloor x
  let fr := x - (f : ℚ)
  if fr < 1/2 then f
  else if (1 : ℚ)/2 < fr then f + 1
  else if f % 2 = 0 then f else f + 1

/-- Python `f"{x:.1%}"` (only nonnegative rates occur in the code). -/
def fmtPct (x : ℚ) : PyStr :=
  let t := (rhe (x * 1000)).natAbs
  natChars (t / 10) ++ pys "." ++ natChars (t % 10) ++ pys "%"

/-- Python `f"{x:.2f}"`. -/
def fmtF2 (x : ℚ) : PyStr :=
  let t := rhe (x * 100)
  let sign : PyStr := if t < 0 then pys "-" else []
  let a := t.natAbs
  sign ++ natChars (a / 100) ++ pys "." ++
    (if a % 100 < 10 then pys "0" else []) ++ natChars (a % 100)

/-- Python `f"{x:.0f}"`. -/
def fmtF0 (x : ℚ) : PyStr := intChars (rhe x)

/-- Modelled from the spec: `Verdict.verdict` outcomes (`app/data/models.py`,
missing from the snapshot).  The `value` strings for `refuted` and
`needs_more_evidence` are pinned by `app/agents/judge.py`. -/
inductive VerdictType where
  | supported
  | refuted
  | needs_more_evidence
  | common_knowledge
deriving DecidableEq

/-- The Python enum's `.value` string. -/
def VerdictType.value : VerdictType → PyStr
  | .supported => pys "supported"
  | .refuted => pys "refuted"
  | .needs_more_evidence => pys "needs-more-evidence"
  | .common_knowledge => pys "common-knowledge"

/-- Modelled from the spec: fact-check verdict record (`app/data/models.py`,
missing from the snapshot). -/
structure Verdict where
  claim_id : PyStr
  claim_text : PyStr
  verdict : VerdictType
  confidence : ℚ
  reasoning : PyStr
deriving DecidableEq

/-- Modelled from the spec: quality metrics record (`app/data/models.py`,
missing from the snapshot); fields as consumed by `app/tools/quality.py`. -/
structure QualityMetrics where
  citation_coverage : ℚ
  unsupported_claim_rate : ℚ
  avg_fact_confidence : ℚ
  reading_level : ℚ
  total_claims : Nat
  total_sources : Nat
  total_citations : Nat
deriving DecidableEq

/-- Modelled from the spec: gate decision record (`app/data/models.py`,
missing from the snapshot). -/
structure GateDecision where
  passed : Bool
  gate_name : PyStr
  metrics : QualityMetrics
  failure_reasons : List PyStr
  recommendations : List PyStr
  retry_count : Nat
deriving DecidableEq

/-- Failure string for low citation coverage (`app/tools/quality.py`). -/
def coverage_failure (actual threshold : ℚ) : PyStr :=
  pys "Citation coverage " ++ fmtPct actual ++ pys " below threshold " ++ fmtPct threshold

/-- Failure string for a high unsupported-claim rate (`app/tools/quality.py`). -/
def unsupported_failure (actual threshold : ℚ) : PyStr :=
  pys "Unsupported claim rate " ++ fmtPct actual ++ pys " exceeds threshold " ++ fmtPct threshold

/-- Failure string for low average fact confidence (`app/tools/quality.py`). -/
def confidence_failure (actual threshold : ℚ) : PyStr :=
  pys "Average fact confidence " ++ fmtF2 actual ++ pys " below threshold " ++ fmtF2 threshold

/-- `check_quality_gates` from `app/tools/quality.py`: three independent
threshold checks that can each clear `passed`, then a reading-level advisory
that only ever appends a recommendation. -/
def check_quality_gates (metrics : QualityMetrics)
    (min_citation_coverage : ℚ := 95/100)
    (max_unsupported_claims : ℚ := 5/100)
    (min_fact_confidence : ℚ := 7/10) :
    Bool × List PyStr × List PyStr :=
  let r0 : Bool × List PyStr × List PyStr := (true, [], [])
  let r1 :=
    if metrics.citation_coverage < min_citation_coverage then
      (false,
       r0.2.1 ++ [coverage_failure metrics.citation_coverage min_citation_coverage],
       r0.2.2 ++ [pys "Add citations to uncited sentences or mark them as common knowledge"])
    else r0
  let r2 :=
    if metrics.unsupported_claim_rate > max_unsupported_claims then
      (false,
       r1.2.1 ++ [unsupported_failure metrics.unsupported_claim_rate max_unsupported_claims],
       r1.2.2 ++ [pys "Find additional sources for unsupported claims or remove them"])
    else r1
  let r3 :=
    if metrics.avg_fact_confidence < min_fact_confidence then
      (false,
       r2.2.1 ++ [confidence_failure metrics.avg_fact_confidence min_fact_confidence],
       r2.2.2 ++ [pys "Strengthen claims with better evidence or use more authoritative sources"])
    else r2
  let recommendations :=
    if metrics.reading_level < 50 then
      r3.2.2 ++ [pys "Reading level (" ++ fmtF0 metrics.reading_level ++
        pys ") is difficult; consider simplifying language for broader audience"]
    else if metrics.reading_level > 80 then
      r3.2.2 ++ [pys "Reading level (" ++ fmtF0 metrics.reading_level ++
        pys ") may be too simple; consider adding more sophisticated language if appropriate for audience"]
    else r3.2.2
  (r3.1, r3.2.1, recommendations)

/-- Quality thresholds from `app/config.py` (`Settings`, defaults). -/
def settings_min_citation_coverage : ℚ := 95/100

/-- Default `Settings.max_unsupported_claims` from `app/config.py`. -/
def settings_max_unsupported_claims : ℚ := 5/100

/-- Default `Settings.min_fact_confidence` from `app/config.py`. -/
def settings_min_fact_confidence : ℚ := 7/10

/-- `evaluate_quality` from `app/agents/judge.py`: runs the gate with the
configured thresholds and, on failure, appends verdict-derived targeted
recommendations. -/
def evaluate_quality (metrics : QualityMetrics) (verdicts : List Verdict)
    (retry_count : Nat := 0) : GateDecision :=
  let r := check_quality_gates metrics settings_min_citation_coverage
    settings_max_unsupported_claims settings_min_fact_confidence
  let passed := r.1
  let failures := r.2.1
  let recommendations := r.2.2
  let recommendations :=
    if passed then recommendations
    else
      let needs_evidence := verdicts.filter (fun v => v.verdict.value = pys "needs-more-evidence")
      let recommendations :=
        if needs_evidence.length ≠ 0 then
          recommendations ++ [pys "Find additional sources for " ++ natChars needs_evidence.length ++
            pys " claims marked as \x27needs-more-evidence\x27"]
        else recommendations
      let refuted := verdicts.filter (fun v => v.verdict.value = pys "refuted")
      if refuted.length ≠ 0 then
        recommendations ++ [pys "Remove or revise " ++ natChars refuted.length ++ pys " refuted claims"]
      else recommendations
  { passed := passed
    gate_name := pys "quality_gate"
    metrics := metrics
    failure_reasons := failures
    recommendations := recommendations
    retry_count := retry_count }

/-- The fixed retry-eligible failure categories from `app/agents/judge.py`. -/
def fixable_issues : List PyStr :=
  [pys "citation coverage", pys "unsupported claims", pys "fact confidence"]

/-- The `is_fixable` check of `should_retry` (`app/agents/judge.py`): some
failure reason contains, case-insensitively, one of the fixed issue
substrings. -/
def is_fixable (failure_reasons : List PyStr) : Bool :=
  failure_reasons.any (fun failure =>
    fixable_issues.any (fun issue => listContains issue (lowerStr failure)))

/-- `should_retry` from `app/agents/judge.py`. -/
def should_retry (decision : GateDecision) (max_retries : Nat := 2) : Bool :=
  if decision.passed then false
  else if decision.retry_count ≥ max_retries then false
  else is_fixable decision.failure_reasons

/-- Sentence-terminator characters of `split_into_sentences`
(`app/tools/citation.py`). -/
def isTerm (c : Char) : Bool := c = '.' || c = '!' || c = '?'

/-- Python `str.isspace` characters relevant to `str.strip()` and `\s`. -/
def isPySpace (c : Char) : Bool :=
  c = ' ' || c = '\t' || c = '\n' || c = '\r' || c = '\x0b' || c = '\x0c'

/-- Python `str.strip()`. -/
def pyStrip (l : PyStr) : PyStr :=
  ((l.dropWhile isPySpace).reverse.dropWhile isPySpace).reverse

/-- Helper: dropping a prefix by a predicate never lengthens a list. -/
theorem length_dropWhile_aux {α : Type} (p : α → Bool) :
    ∀ l : List α, (l.dropWhile p).length ≤ l.length := by
  intro l
  induction l with
  | nil => simp
  | cons a l ih =>
    rw [List.dropWhile_cons]
    split
    · exact Nat.le_trans ih (Nat.le_succ _)
    · exact Nat.le_refl _

/-- The non-overlapping matches of the sentence regex `([^.!?]+[.!?]+)`
(`re.finditer` in `split_into_sentences`): each match is a maximal run of
non-terminator characters followed by the maximal run of terminator
characters after it, regardless of what follows. -/
def scanAux : List Char → List Char → List Char → List PyStr
  | [], nt, tm => if !nt.isEmpty && !tm.isEmpty then [nt.reverse ++ tm.reverse] else []
  | c :: rest, nt, tm =>
    if isTerm c then
      if nt.isEmpty then scanAux rest [] []
      else scanAux rest nt (c :: tm)
    else
      if tm.isEmpty then scanAux rest (c :: nt) []
      else (nt.reverse ++ tm.reverse) :: scanAux rest [c] []

/-- The non-overlapping matches of the sentence regex `([^.!?]+[.!?]+)`
(`re.finditer` in `split_into_sentences`), produced by a left-to-right
one-pass scanner (`scanAux` carries the pending non-terminator run and
terminator run, reversed): each match is a maximal run of non-terminator
characters followed by the maximal run of terminator characters after it,
regardless of what follows. -/
def scanMatches (text : PyStr) : List PyStr := scanAux text [] []

/-- Whether `sub` occurs in `text` at position `p`. -/
def matchesAt (text sub : PyStr) (p : Nat) : Bool := sub.isPrefixOf (text.drop p)

/-- Python `text.index(sub, start)`: first occurrence position, or `none`
(Python raises `ValueError`). -/
def strIndexFrom (text sub : PyStr) (start : Nat) : Option Nat :=
  (List.range' start (text.length + 1 - start)).find? (fun p => matchesAt text sub p)

/-- The offset-assignment loop of `split_into_sentences`: each matched,
stripped, nonempty sentence is located in the original text from the end of
the previous one; returns the sentences with offsets and the final
`last_end`.  `none` models the `ValueError` Python would raise. -/
def attach_offsets (text : PyStr) : List PyStr → Nat →
    Option (List (PyStr × Nat × Nat) × Nat)
  | [], lastEnd => some ([], lastEnd)
  | m :: rest, lastEnd =>
    let sentence := pyStrip m
    if sentence.isEmpty then attach_offsets text rest lastEnd
    else
      match strIndexFrom text sentence lastEnd with
      | none => none
      | some start =>
        match attach_offsets text rest (start + sentence.length) with
        | none => none
        | some (out, fin) => some ((sentence, start, start + sentence.length) :: out, fin)

/-- `split_into_sentences` from `app/tools/citation.py`. -/
def split_into_sentences (text : PyStr) : Option (List (PyStr × Nat × Nat)) :=
  match attach_offsets text (scanMatches text) 0 with
  | none => none
  | some (sentences, lastEnd) =>
    if lastEnd < text.length then
      let remaining := pyStrip (text.drop lastEnd)
      if remaining.isEmpty then some sentences
      else some (sentences ++ [(remaining, lastEnd, text.length)])
    else some sentences

/-- Python `int()` on a digit string. -/
def digitsToNat (ds : PyStr) : Nat :=
  ds.foldl (fun acc c => acc * 10 + (c.toNat - 48)) 0

/-- Parser positions inside a citation marker after the opening bracket:
expecting the first digit, inside a digit run, in the whitespace after a
digit run, or after a separating comma. -/
inductive MPhase where
  | start
  | inDigits
  | afterDigits
  | afterComma
deriving DecidableEq

/-- Recursive-descent parser for the body of the citation-marker regex
`\[(\d+(?:\s*,\s*\d+)*)\]` after the opening bracket, one character at a
time (`ids` holds completed numbers reversed, `accum` the current digit run
reversed).  Greedy maximal munch is equivalent to the regex engine's
backtracking search here, since shortening a greedy run can never make the
following literal match. -/
def parseMarkerAux : List Char → MPhase → List Nat → List Char → Option (List Nat)
  | [], _, _, _ => none
  | c :: rest, ph, ids, accum =>
    match ph with
    | .start =>
      if c.isDigit then parseMarkerAux rest .inDigits ids [c] else none
    | .inDigits =>
      if c.isDigit then parseMarkerAux rest .inDigits ids (c :: accum)
      else if c = ']' then some ((digitsToNat accum.reverse :: ids).reverse)
      else if c = ',' then parseMarkerAux rest .afterComma (digitsToNat accum.reverse :: ids) []
      else if isPySpace c then
        parseMarkerAux rest .afterDigits (digitsToNat accum.reverse :: ids) []
      else none
    | .afterDigits =>
      if isPySpace c then parseMarkerAux rest .afterDigits ids []
      else if c = ',' then parseMarkerAux rest .afterComma ids []
      else none
    | .afterComma =>
      if isPySpace c then parseMarkerAux rest .afterComma ids []
      else if c.isDigit then parseMarkerAux rest .inDigits ids [c]
      else none

/-- The scan of `extract_citation_markers` (`re.finditer` over
`\[(\d+(?:\s*,\s*\d+)*)\]`), tracking the absolute position.  The scanner
advances one character at a time; this is equivalent to resuming after each
match because a matched marker contains no further opening bracket, so no
match can start inside another. -/
def extractMarkersAux : PyStr → Nat → List (Nat × List Nat)
  | [], _ => []
  | c :: rest, pos =>
    let tail := extractMarkersAux rest (pos + 1)
    if c = '[' then
      match parseMarkerAux rest .start [] [] with
      | some ids => (pos, ids) :: tail
      | none => tail
    else tail

/-- `extract_citation_markers` from `app/tools/citation.py`:
`(position, citation_ids)` pairs for each bracketed marker. -/
def extract_citation_markers (text : PyStr) : List (Nat × List Nat) :=
  extractMarkersAux text 0

/-- Fuelled worker for `removeAll`; each step consumes at least one
character, so fuel equal to the list length never runs out. -/
def removeAllFuel (pat : PyStr) : Nat → PyStr → PyStr
  | _, [] => []
  | 0, l => l
  | fuel + 1, c :: rest =>
    if pat.isPrefixOf (c :: rest) && !pat.isEmpty then
      removeAllFuel pat fuel ((c :: rest).drop pat.length)
    else c :: removeAllFuel pat fuel rest

/-- Python `str.replace(pat, "")` (the only replacement the code performs):
left-to-right removal of every occurrence of `pat`. -/
def removeAll (pat l : PyStr) : PyStr := removeAllFuel pat l.length l

/-- Python `sorted(set(xs))`: the ascending enumeration of the distinct
elements. -/
def pySortedSet (xs : List Nat) : List Nat :=
  (xs.dedup).insertionSort (· ≤ ·)

/-- Modelled from the spec: a fetched source document (`app/data/models.py`,
missing from the snapshot); fields as consumed by `create_citation_map` and
`deduplicate_sources`.  `fetch_date` stands for
`fetch_timestamp.strftime("%Y-%m-%d")`. -/
structure Source where
  source_id : PyStr
  url : PyStr
  title : PyStr
  author : Option PyStr
  published_date : Option PyStr
  content_hash : PyStr
  fetch_date : PyStr
deriving DecidableEq

/-- Modelled from the spec: a bibliography entry (`app/data/models.py`,
missing from the snapshot). -/
structure Citation where
  citation_id : Nat
  source_id : PyStr
  title : PyStr
  author : Option PyStr
  published_date : Option PyStr
  url : PyStr
  accessed_date : PyStr
deriving DecidableEq

/-- Modelled from the spec: a sentence-level citation mapping
(`app/data/models.py`, missing from the snapshot). -/
structure SentenceCitation where
  sentence : PyStr
  start_char : Nat
  end_char : Nat
  citation_ids : List Nat
  is_common_knowledge : Bool
deriving DecidableEq

/-- Modelled from the spec: the citation map (`app/data/models.py`, missing
from the snapshot). -/
structure CitationMap where
  bibliography : List Citation
  sentence_mappings : List SentenceCitation
  coverage_rate : ℚ
deriving DecidableEq

/-- The bibliography loop of `create_citation_map`: `enumerate(sources, 1)`.
(The `source_map` dict built alongside it in the Python code is never read
afterwards and is omitted.) -/
def build_bibliography : List Source → Nat → List Citation
  | [], _ => []
  | s :: rest, i =>
    { citation_id := i
      source_id := s.source_id
      title := s.title
      author := s.author
      published_date := s.published_date
      url := s.url
      accessed_date := s.fetch_date } :: build_bibliography rest (i + 1)

/-- The sentence loop of `create_citation_map`: for each sentence, collect
the marker ids in `text[start:end]`, dedupe and sort them, detect common
knowledge, strip a `[COMMON]` tag, and count cited sentences. -/
def build_mappings (text : PyStr) (phrases : List PyStr) :
    List (PyStr × Nat × Nat) → List SentenceCitation × Nat
  | [] => ([], 0)
  | (sentence, start, endc) :: rest =>
    let slice := (text.drop start).take (endc - start)
    let markers := extract_citation_markers slice
    let citation_ids := pySortedSet (markers.flatMap (fun m => m.2))
    let is_common0 := phrases.any (fun p => listContains (lowerStr p) (lowerStr sentence))
    let hasTag := listContains (pys "[COMMON]") sentence
    let is_common := is_common0 || hasTag
    let sentence2 := if hasTag then pyStrip (removeAll (pys "[COMMON]") sentence) else sentence
    let mapping : SentenceCitation :=
      { sentence := sentence2
        start_char := start
        end_char := endc
        citation_ids := citation_ids
        is_common_knowledge := is_common }
    let r := build_mappings text phrases rest
    (mapping :: r.1, (if !citation_ids.isEmpty || is_common then 1 else 0) + r.2)

/-- `create_citation_map` from `app/tools/citation.py`.  `none` models the
`ValueError` Python would raise from `text.index`. -/
def create_citation_map (text : PyStr) (sources : List Source)
    (phrases : List PyStr := []) : Option CitationMap :=
  let bibliography := build_bibliography sources 1
  match split_into_sentences text with
  | none => none
  | some sentences =>
    let r := build_mappings text phrases sentences
    let total_sentences := sentences.length
    let coverage_rate : ℚ :=
      if total_sentences > 0 then (r.2 : ℚ) / (total_sentences : ℚ) else 0
    some { bibliography := bibliography
           sentence_mappings := r.1
           coverage_rate := coverage_rate }

/-- The issue string for an unknown citation id (`validate_citations`). -/
def invalid_id_issue (cid : Nat) (sentence : PyStr) : PyStr :=
  pys "Invalid citation ID [" ++ natChars cid ++ pys "] in sentence: " ++
    sentence.take 50 ++ pys "..."

/-- `validate_citations` from `app/tools/citation.py`. -/
def validate_citations (cm : CitationMap) : List PyStr :=
  let valid_ids := cm.bibliography.map (fun c => c.citation_id)
  let id_issues := cm.sentence_mappings.flatMap (fun m =>
    (m.citation_ids.filter (fun cid => cid ∉ valid_ids)).map
      (fun cid => invalid_id_issue cid m.sentence))
  let uncited := cm.sentence_mappings.filter
    (fun m => m.citation_ids.isEmpty && !m.is_common_knowledge)
  if uncited.length ≠ 0 then
    id_issues ++ [natChars uncited.length ++
      pys " sentences lack citations and are not marked as common knowledge"]
  else id_issues

/-- Per the spec's words (for comparison with the code): sentence boundaries
lie at a terminal `.`, `!` or `?` that is followed by whitespace or the end
of the text; segments are stripped and empty segments dropped. -/
def spec_split_sentences (text : PyStr) : List (PyStr × Nat × Nat) :=
  let cuts := (List.range text.length).filter (fun i =>
    (match text.get? i with | some c => isTerm c | none => false)
    && (i + 1 = text.length ||
        (match text.get? (i + 1) with | some c => isPySpace c | none => false)))
  let bounds := cuts.map (fun i => i + 1)
  let starts := 0 :: bounds
  let stops := bounds ++ [text.length]
  (starts.zip stops).filterMap (fun se =>
    let seg := pyStrip ((text.drop se.1).take (se.2 - se.1))
    if seg.isEmpty then none else some (seg, se.1, se.2))

/-- `deduplicate_sources` loop from `app/tools/scrape.py`: a source is kept
iff neither its content hash nor its source id has been recorded by a
previously kept source. -/
def dedup_aux : List Source → List PyStr → List PyStr → List Source
  | [], _, _ => []
  | s :: rest, seenH, seenI =>
    if s.content_hash ∉ seenH ∧ s.source_id ∉ seenI then
      s :: dedup_aux rest (s.content_hash :: seenH) (s.source_id :: seenI)
    else dedup_aux rest seenH seenI

/-- `deduplicate_sources` from `app/tools/scrape.py`. -/
def deduplicate_sources (sources : List Source) : List Source :=
  dedup_aux sources [] []

/-- Modelled from the spec: the immutable topic input (`app/data/models.py`,
missing from the snapshot). -/
structure TopicSpec where
  topic : PyStr
  audience : PyStr
  goals : List PyStr
  keywords : List PyStr
deriving DecidableEq

/-- Modelled from the spec: article outline (`app/data/models.py`, missing
from the snapshot); treated as stable data by the claims. -/
structure Outline where
  title : PyStr
  sections : List PyStr
deriving DecidableEq

/-- Modelled from the spec: a drafted section (`app/data/models.py`, missing
from the snapshot). -/
structure DraftSection where
  section_title : PyStr
  content : PyStr
deriving DecidableEq

/-- Modelled from the spec: the composed article (`app/data/models.py`,
missing from the snapshot); fields as consumed by `judge_node`. -/
structure Article where
  title : PyStr
  content : PyStr
  citations : CitationMap
  word_count : Nat
deriving DecidableEq

/-- Modelled from the spec: SEO metadata (`app/data/models.py`, missing from
the snapshot). -/
structure SEOMetadata where
  title_tag : PyStr
  meta_description : PyStr
deriving DecidableEq

/-- Modelled from the spec: the harvested source pack (`app/data/models.py`,
missing from the snapshot); `retry_node` mutates only its `sources` field. -/
structure SourcePack where
  sources : List Source
  search_queries : List PyStr
deriving DecidableEq

/-- Modelled from the spec: per-run metrics written by `finalize_node`
(`app/data/models.py`, missing from the snapshot).  Timestamps are abstract
ticks; `time_elapsed_seconds` is their difference. -/
structure RunMetrics where
  run_id : PyStr
  quality : QualityMetrics
  time_elapsed_seconds : ℚ
  total_tokens : Nat
  groq_calls : Nat
  started_at : Nat
  completed_at : Nat
  status : PyStr
deriving DecidableEq

/-- The blackboard state of `app/graph/state.py` (`PipelineState`).  Keys a
stage may not yet have produced are `Option`; control fields carry the
defaults `create_initial_state` assigns.  A node function below models the
node together with LangGraph's merge of its returned delta (returned keys
replace the state's, all other keys are untouched). -/
structure PipelineState where
  run_id : PyStr
  topic_spec : TopicSpec
  started_at : Nat
  outline : Option Outline
  source_pack : SourcePack
  indexed_chunks : Nat
  draft_sections : List DraftSection
  verdicts : List Verdict
  article : Option Article
  seo_metadata : Option SEOMetadata
  gate_decision : Option GateDecision
  quality_metrics : Option QualityMetrics
  retry_count : Nat
  should_retry : Bool
  artifacts : List (PyStr × PyStr)
  logs : List PyStr
  run_metrics : Option RunMetrics
  completed_at : Option Nat
  status : PyStr
  error : Option PyStr
deriving DecidableEq

/-- `judge_node` from `app/graph/workflow.py`.  `metrics` stands for the
result of `calculate_quality_metrics` on the current article (its
reading-level component calls the external `textstat` library, so the
metrics value is an input of the model); the verdicts and retry count are
read from the state exactly as the code does, and `max_retries=2` is the
literal the code passes to `should_retry`. -/
def judge_node (state : PipelineState) (metrics : QualityMetrics) : PipelineState :=
  let decision := evaluate_quality metrics state.verdicts state.retry_count
  let retry := should_retry decision 2
  { state with
      quality_metrics := some metrics
      gate_decision := some decision
      should_retry := retry
      logs := state.logs ++ [pys "✓ Quality gate: " ++
        (if decision.passed then pys "PASSED" else pys "FAILED")] }

/-- `retry_node` from `app/graph/workflow.py`.  `additional` stands for the
result of the external `harvest_sources` call. -/
def retry_node (state : PipelineState) (additional : SourcePack) : PipelineState :=
  let new_retry_count := state.retry_count + 1
  let all_sources := state.source_pack.sources ++ additional.sources
  { state with
      source_pack := { state.source_pack with sources := all_sources }
      retry_count := new_retry_count
      should_retry := false
      logs := state.logs ++ [pys "↻ Retry " ++ natChars new_retry_count ++
        pys ": Added " ++ natChars additional.sources.length ++ pys " more sources"] }

/-- `finalize_node` from `app/graph/workflow.py`.  `now` is the abstract
current time and the usage counters stand for the external client's stats;
`none` models the `KeyError` Python would raise if the judge had not yet
written `quality_metrics`/`gate_decision`. -/
def finalize_node (state : PipelineState) (now : Nat)
    (usage_total_tokens usage_total_calls : Nat) : Option PipelineState :=
  match state.quality_metrics, state.gate_decision with
  | some qm, some gd =>
    let elapsed : ℚ := (now : ℚ) - (state.started_at : ℚ)
    let run_metrics : RunMetrics :=
      { run_id := state.run_id
        quality := qm
        time_elapsed_seconds := elapsed
        total_tokens := usage_total_tokens
        groq_calls := usage_total_calls
        started_at := state.started_at
        completed_at := now
        status := if gd.passed then pys "completed" else pys "completed_with_warnings" }
    some { state with
        run_metrics := some run_metrics
        completed_at := some now
        status := pys "completed"
        logs := state.logs ++ [pys "✓ Pipeline complete"] }
  | _, _ => none

/-- `should_retry_check` from `app/graph/workflow.py`: the conditional edge
out of the judge node. -/
def should_retry_check (state : PipelineState) : PyStr :=
  if state.should_retry then pys "retry" else pys "finalize"

/-- One iteration's external inputs for the judge–retry cycle of the graph
in `build_workflow`: `stages` is the combined effect of the
index→summarize→factcheck→write→edit→seo nodes of that iteration (all
driven by external search/LLM calls), `metrics` the quality metrics the
judge computes from the resulting article, and `extra` the sources a retry
would fetch. -/
structure CycleOracle where
  stages : PipelineState → PipelineState
  metrics : QualityMetrics
  extra : SourcePack

/-- The judge–retry–finalize loop of the compiled graph (`build_workflow`):
after each judge evaluation the conditional edge routes to `retry` (which
loops back through the stages) or to `finalize`.  Returns the route taken at
each judge evaluation and the final state; `none` if the oracle list is
exhausted before finalization or `finalize_node` fails. -/
def runGateLoop : PipelineState → List CycleOracle → Nat → Nat → Nat →
    Option (List PyStr × PipelineState)
  | _, [], _, _, _ => none
  | st, c :: rest, now, tok, calls =>
    let st1 := judge_node (c.stages st) c.metrics
    if should_retry_check st1 = pys "retry" then
      match runGateLoop (retry_node st1 c.extra) rest now tok calls with
      | none => none
      | some (routes, fin) => some (pys "retry" :: routes, fin)
    else
      match finalize_node st1 now tok calls with
      | none => none
      | some fin => some ([pys "finalize"], fin)

/-- The timeout error text of `run_pipeline` (`app/graph/workflow.py`). -/
def pipeline_timeout_error (timeout : Nat) : PyStr :=
  pys "Pipeline exceeded timeout of " ++ natChars timeout ++ pys " seconds"

/-- The `asyncio.TimeoutError` handler of `run_pipeline`
(`app/graph/workflow.py`): the state accumulated so far is copied and only
`status`, `error` and `completed_at` are overwritten.  The expiry of the
wall-clock timeout itself is an environmental event (`asyncio.wait_for`);
this models what `run_pipeline` returns when it fires. -/
def run_pipeline_on_timeout (state : PipelineState) (timeout : Nat) (now : Nat) :
    PipelineState :=
  { state with
      status := pys "failed"
      error := some (pipeline_timeout_error timeout)
      completed_at := some now }

/-- Default `Settings.max_pipeline_time_seconds` from `app/config.py`. -/
def max_pipeline_time_seconds : Nat := 600

/-! ## Quality-gate lemmas -/

/-- The gate's pass flag is the conjunction of the three threshold checks. -/
theorem cqg_passed (m : QualityMetrics) (minc maxu minf : ℚ) :
    (check_quality_gates m minc maxu minf).1 =
      (!(decide (m.citation_coverage < minc)) &&
       !(decide (m.unsupported_claim_rate > maxu)) &&
       !(decide (m.avg_fact_confidence < minf))) := by
  unfold check_quality_gates
  by_cases h1 : m.citation_coverage < minc <;>
  by_cases h2 : m.unsupported_claim_rate > maxu <;>
  by_cases h3 : m.avg_fact_confidence < minf <;>
  simp [h1, h2, h3]

/-- Each violated threshold contributes exactly one failure reason. -/
theorem cqg_failures_len (m : QualityMetrics) (minc maxu minf : ℚ) :
    (check_quality_gates m minc maxu minf).2.1.length =
      ((if m.citation_coverage < minc then 1 else 0) +
       (if m.unsupported_claim_rate > maxu then 1 else 0) +
       (if m.avg_fact_confidence < minf then 1 else 0)) := by
  unfold check_quality_gates
  by_cases h1 : m.citation_coverage < minc <;>
  by_cases h2 : m.unsupported_claim_rate > maxu <;>
  by_cases h3 : m.avg_fact_confidence < minf <;>
  simp [h1, h2, h3]

/-- Recommendations: one per violated threshold plus at most one
reading-level advisory. -/
theorem cqg_recs_len (m : QualityMetrics) (minc maxu minf : ℚ) :
    (check_quality_gates m minc maxu minf).2.2.length =
      (check_quality_gates m minc maxu minf).2.1.length +
        (if m.reading_level < 50 ∨ m.reading_level > 80 then 1 else 0) := by
  unfold check_quality_gates
  by_cases h1 : m.citation_coverage < minc <;>
  by_cases h2 : m.unsupported_claim_rate > maxu <;>
  by_cases h3 : m.avg_fact_confidence < minf <;>
  by_cases h4 : m.reading_level < 50 <;>
  by_cases h5 : m.reading_level > 80 <;>
  simp [h1, h2, h3, h4, h5]

/-- C1: `check_quality_gates` passes iff coverage ≥ min, unsupported rate ≤
max and confidence ≥ min, the three checks independent, each violated
threshold contributing exactly one failure reason and one recommendation;
a reading level outside [50, 80] never affects `passed` and only adds one
advisory recommendation.  The spec's example (coverage 0.98, unsupported
0.02, confidence 0.85, defaults) passes with zero failure reasons. -/
theorem C1_check_quality_gates (m : QualityMetrics) (minc maxu minf : ℚ) :
    ((check_quality_gates m minc maxu minf).1 = true ↔
      (minc ≤ m.citation_coverage ∧ m.unsupported_claim_rate ≤ maxu ∧
       minf ≤ m.avg_fact_confidence))
    ∧ (check_quality_gates m minc maxu minf).2.1.length =
        ((if m.citation_coverage < minc then 1 else 0) +
         (if m.unsupported_claim_rate > maxu then 1 else 0) +
         (if m.avg_fact_confidence < minf then 1 else 0))
    ∧ (check_quality_gates m minc maxu minf).2.2.length =
        (check_quality_gates m minc maxu minf).2.1.length +
          (if m.reading_level < 50 ∨ m.reading_level > 80 then 1 else 0)
    ∧ (∀ rl : ℚ, (check_quality_gates { m with reading_level := rl } minc maxu minf).1 =
        (check_quality_gates m minc maxu minf).1)
    ∧ (check_quality_gates ⟨98/100, 2/100, 85/100, 65, 20, 5, 5⟩).1 = true
    ∧ (check_quality_gates ⟨98/100, 2/100, 85/100, 65, 20, 5, 5⟩).2.1 = [] := by
  refine ⟨?_, cqg_failures_len m minc maxu minf, cqg_recs_len m minc maxu minf,
    ?_, by norm_num [check_quality_gates], by norm_num [check_quality_gates]⟩
  · rw [cqg_passed]
    simp [not_lt, and_assoc]
  · intro rl
    rw [cqg_passed, cqg_passed]

/-! ## String-containment lemmas for retry eligibility -/

/-- Lowercasing distributes over concatenation. -/
theorem lowerStr_append (a b : PyStr) : lowerStr (a ++ b) = lowerStr a ++ lowerStr b :=
  List.map_append _ _ _

/-- A list is a Boolean prefix of itself extended by anything. -/
theorem isPrefixOf_append_of (a : List Char) :
    ∀ b c : List Char, a.isPrefixOf b = true → a.isPrefixOf (b ++ c) = true := by
  induction a with
  | nil => intro b c _; cases b <;> simp [List.isPrefixOf]
  | cons x xs ih =>
    intro b c h
    cases b with
    | nil => simp [List.isPrefixOf] at h
    | cons y ys =>
      simp only [List.cons_append, List.isPrefixOf, Bool.and_eq_true, beq_iff_eq] at h ⊢
      exact ⟨h.1, ih ys c h.2⟩

/-- A Boolean prefix occurs as a substring. -/
theorem listContains_of_pre (a b : List Char) (h : a.isPrefixOf b = true) :
    listContains a b = true := by
  cases b with
  | nil =>
    cases a with
    | nil => rfl
    | cons x xs => simp [List.isPrefixOf] at h
  | cons c t =>
    unfold listContains
    rw [h, Bool.true_or]

/-- A needle that starts a string occurs in any extension of it. -/
theorem listContains_of_prefix_head (needle head rest : List Char)
    (h : needle.isPrefixOf head = true) :
    listContains needle (head ++ rest) = true :=
  listContains_of_pre _ _ (isPrefixOf_append_of _ _ _ h)

/-- A coverage failure reason is retry-eligible. -/
theorem fixable_coverage (a t : ℚ) :
    listContains (pys "citation coverage") (lowerStr (coverage_failure a t)) = true := by
  unfold coverage_failure
  simp only [lowerStr_append, List.append_assoc]
  rw [show lowerStr (pys "Citation coverage ") = pys "citation coverage " from by decide]
  exact listContains_of_prefix_head _ _ _ (by decide)

/-- Substring containment survives prepending to the haystack. -/
theorem listContains_append_left (a p t : List Char) (h : listContains a t = true) :
    listContains a (p ++ t) = true := by
  induction p with
  | nil => exact h
  | cons c cs ih =>
    simp only [List.cons_append]
    unfold listContains
    rw [ih, Bool.or_true]

/-- A confidence failure reason is retry-eligible. -/
theorem fixable_confidence (a t : ℚ) :
    listContains (pys "fact confidence") (lowerStr (confidence_failure a t)) = true := by
  unfold confidence_failure
  simp only [lowerStr_append, List.append_assoc]
  rw [show lowerStr (pys "Average fact confidence ") =
    pys "average " ++ pys "fact confidence " from by decide]
  rw [List.append_assoc]
  exact listContains_append_left _ _ _ (listContains_of_prefix_head _ _ _ (by decide))

/-! ## Retry-decision lemmas -/

/-- `should_retry` is `false` once the retry budget is exhausted. -/
theorem should_retry_maxed (d : GateDecision) (mr : Nat) (h : mr ≤ d.retry_count) :
    should_retry d mr = false := by
  unfold should_retry
  by_cases hp : d.passed <;> simp [hp, h]

/-- `evaluate_quality` copies the gate's pass flag, failure reasons and the
given retry count into the decision. -/
theorem evaluate_quality_fields (m : QualityMetrics) (v : List Verdict) (rc : Nat) :
    (evaluate_quality m v rc).passed =
      (check_quality_gates m settings_min_citation_coverage
        settings_max_unsupported_claims settings_min_fact_confidence).1
    ∧ (evaluate_quality m v rc).failure_reasons =
      (check_quality_gates m settings_min_citation_coverage
        settings_max_unsupported_claims settings_min_fact_confidence).2.1
    ∧ (evaluate_quality m v rc).retry_count = rc :=
  ⟨rfl, rfl, rfl⟩

/-- A failing gate with a retry-eligible failure reason and remaining budget
yields a retry. -/
theorem should_retry_eval (m : QualityMetrics) (v : List Verdict) (rc mr : Nat)
    (hrc : rc < mr)
    (hfail : (check_quality_gates m settings_min_citation_coverage
      settings_max_unsupported_claims settings_min_fact_confidence).1 = false)
    (hfix : is_fixable (check_quality_gates m settings_min_citation_coverage
      settings_max_unsupported_claims settings_min_fact_confidence).2.1 = true) :
    should_retry (evaluate_quality m v rc) mr = true := by
  unfold should_retry
  rw [(evaluate_quality_fields m v rc).1, (evaluate_quality_fields m v rc).2.1,
    (evaluate_quality_fields m v rc).2.2, hfail]
  simp [Nat.not_le.mpr hrc, hfix]

/-- The metrics of the spec's coverage-failure example: coverage 0.70 with
the other metrics passing. -/
def coverage_fail_metrics : QualityMetrics :=
  { citation_coverage := 7/10
    unsupported_claim_rate := 2/100
    avg_fact_confidence := 85/100
    reading_level := 65
    total_claims := 20
    total_sources := 5
    total_citations := 5 }

/-- On the coverage-failure example, the gate fails with exactly the
coverage failure reason. -/
theorem coverage_fail_metrics_check :
    check_quality_gates coverage_fail_metrics settings_min_citation_coverage
      settings_max_unsupported_claims settings_min_fact_confidence =
      (false, [coverage_failure (7/10) (95/100)],
       [pys "Add citations to uncited sentences or mark them as common knowledge"]) := by
  norm_num [check_quality_gates, coverage_fail_metrics, settings_min_citation_coverage,
    settings_max_unsupported_claims, settings_min_fact_confidence]

/-- C3: `should_retry` returns `false` on a passed decision, `false` once
`retry_count ≥ max_retries`, and otherwise `true` iff some failure reason
contains, case-insensitively, one of the substrings "citation coverage",
"unsupported claims" or "fact confidence"; the spec's two concrete cases
(coverage failure at retry_count 0 ⇒ retry; same at retry_count 2 with
max_retries 2 ⇒ no retry) evaluate as stated. -/
theorem C3_should_retry (d : GateDecision) (mr : Nat) :
    (should_retry d mr = true ↔
      (d.passed = false ∧ d.retry_count < mr ∧
        ∃ f ∈ d.failure_reasons, ∃ issue ∈ fixable_issues,
          listContains issue (lowerStr f) = true))
    ∧ should_retry (evaluate_quality coverage_fail_metrics [] 0) 2 = true
    ∧ should_retry (evaluate_quality coverage_fail_metrics [] 2) 2 = false := by
  refine ⟨?_, ?_, ?_⟩
  · unfold should_retry
    by_cases hp : d.passed
    · simp [hp]
    · by_cases hrc : d.retry_count ≥ mr
      · simp [hp, hrc, Nat.not_lt.mpr hrc]
      · simp only [hp, if_false, hrc, if_neg (by exact hrc)]
        simp [is_fixable, List.any_eq_true, hp, Nat.lt_of_not_le (by exact hrc)]
  · refine should_retry_eval _ _ _ _ (by norm_num)
      (by rw [coverage_fail_metrics_check])
      (by rw [coverage_fail_metrics_check]
          simp [is_fixable, fixable_issues, fixable_coverage])
  · exact should_retry_maxed _ _ (by norm_num [evaluate_quality])

/-! ## Frame theorems for the Retry node and the timeout handler -/

/-- C8: the Retry node appends the additionally fetched sources to the
existing list (never replacing or removing one), increments `retry_count`
by exactly one, clears `should_retry`, appends exactly one log entry, and
leaves every other blackboard field untouched. -/
theorem C8_retry_node_frame (st : PipelineState) (extra : SourcePack) :
    (retry_node st extra).source_pack.sources = st.source_pack.sources ++ extra.sources
    ∧ (retry_node st extra).retry_count = st.retry_count + 1
    ∧ (retry_node st extra).should_retry = false
    ∧ (retry_node st extra).logs = st.logs ++ [pys "↻ Retry " ++
        natChars (st.retry_count + 1) ++ pys ": Added " ++
        natChars extra.sources.length ++ pys " more sources"]
    ∧ (retry_node st extra).run_id = st.run_id
    ∧ (retry_node st extra).topic_spec = st.topic_spec
    ∧ (retry_node st extra).started_at = st.started_at
    ∧ (retry_node st extra).outline = st.outline
    ∧ (retry_node st extra).source_pack.search_queries = st.source_pack.search_queries
    ∧ (retry_node st extra).indexed_chunks = st.indexed_chunks
    ∧ (retry_node st extra).draft_sections = st.draft_sections
    ∧ (retry_node st extra).verdicts = st.verdicts
    ∧ (retry_node st extra).article = st.article
    ∧ (retry_node st extra).seo_metadata = st.seo_metadata
    ∧ (retry_node st extra).gate_decision = st.gate_decision
    ∧ (retry_node st extra).quality_metrics = st.quality_metrics
    ∧ (retry_node st extra).artifacts = st.artifacts
    ∧ (retry_node st extra).run_metrics = st.run_metrics
    ∧ (retry_node st extra).completed_at = st.completed_at
    ∧ (retry_node st extra).status = st.status
    ∧ (retry_node st extra).error = st.error := by
  and_intros <;> rfl

/-- C9: when the wall-clock timeout (default 600 seconds) fires,
`run_pipeline` returns the accumulated state with `status="failed"`, a
human-readable timeout message and `completed_at` set, every other field
preserved unchanged. -/
theorem C9_timeout_handler (st : PipelineState) (timeout now : Nat) :
    (run_pipeline_on_timeout st timeout now).status = pys "failed"
    ∧ (run_pipeline_on_timeout st timeout now).error =
        some (pys "Pipeline exceeded timeout of " ++ natChars timeout ++ pys " seconds")
    ∧ (run_pipeline_on_timeout st timeout now).completed_at = some now
    ∧ (run_pipeline_on_timeout st timeout now).run_id = st.run_id
    ∧ (run_pipeline_on_timeout st timeout now).topic_spec = st.topic_spec
    ∧ (run_pipeline_on_timeout st timeout now).started_at = st.started_at
    ∧ (run_pipeline_on_timeout st timeout now).outline = st.outline
    ∧ (run_pipeline_on_timeout st timeout now).source_pack = st.source_pack
    ∧ (run_pipeline_on_timeout st timeout now).indexed_chunks = st.indexed_chunks
    ∧ (run_pipeline_on_timeout st timeout now).draft_sections = st.draft_sections
    ∧ (run_pipeline_on_timeout st timeout now).verdicts = st.verdicts
    ∧ (run_pipeline_on_timeout st timeout now).article = st.article
    ∧ (run_pipeline_on_timeout st timeout now).seo_metadata = st.seo_metadata
    ∧ (run_pipeline_on_timeout st timeout now).gate_decision = st.gate_decision
    ∧ (run_pipeline_on_timeout st timeout now).quality_metrics = st.quality_metrics
    ∧ (run_pipeline_on_timeout st timeout now).retry_count = st.retry_count
    ∧ (run_pipeline_on_timeout st timeout now).should_retry = st.should_retry
    ∧ (run_pipeline_on_timeout st timeout now).artifacts = st.artifacts
    ∧ (run_pipeline_on_timeout st timeout now).logs = st.logs
    ∧ (run_pipeline_on_timeout st timeout now).run_metrics = st.run_metrics
    ∧ max_pipeline_time_seconds = 600 := by
  and_intros <;> rfl

/-! ## Orchestrator retry-loop theorems -/

/-- The gate fails at the configured thresholds. -/
def gate_fails (m : QualityMetrics) : Prop :=
  (check_quality_gates m settings_min_citation_coverage
    settings_max_unsupported_claims settings_min_fact_confidence).1 = false

/-- The gate fails and some failure reason is retry-eligible. -/
def gate_fails_fixable (m : QualityMetrics) : Prop :=
  gate_fails m ∧
    is_fixable (check_quality_gates m settings_min_citation_coverage
      settings_max_unsupported_claims settings_min_fact_confidence).2.1 = true

/-- The judge node stores the retry signal computed by `should_retry`. -/
theorem judge_node_should_retry (s : PipelineState) (m : QualityMetrics) :
    (judge_node s m).should_retry =
      should_retry (evaluate_quality m s.verdicts s.retry_count) 2 := rfl

/-- The judge node does not change the retry count. -/
theorem judge_node_retry_count (s : PipelineState) (m : QualityMetrics) :
    (judge_node s m).retry_count = s.retry_count := rfl

/-- The retry node increments the retry count. -/
theorem retry_node_retry_count (s : PipelineState) (p : SourcePack) :
    (retry_node s p).retry_count = s.retry_count + 1 := rfl

/-- A fixably failing judge evaluation with remaining budget routes to
`retry`. -/
theorem judge_route_retry (s : PipelineState) (m : QualityMetrics)
    (hrc : s.retry_count < 2) (hm : gate_fails_fixable m) :
    should_retry_check (judge_node s m) = pys "retry" := by
  unfold should_retry_check
  rw [judge_node_should_retry,
    should_retry_eval m s.verdicts s.retry_count 2 hrc hm.1 hm.2]
  rfl

/-- A judge evaluation with exhausted budget routes to `finalize`,
whatever the gate outcome. -/
theorem judge_route_finalize (s : PipelineState) (m : QualityMetrics)
    (hrc : 2 ≤ s.retry_count) :
    should_retry_check (judge_node s m) = pys "finalize" := by
  unfold should_retry_check
  rw [judge_node_should_retry, should_retry_maxed _ 2 hrc]
  rfl

/-- What `finalize_node` produces once the judge has written metrics and a
decision: the blackboard status becomes `"completed"` unconditionally while
the run-metrics status reflects the gate outcome. -/
theorem finalize_node_spec (s : PipelineState) (now tok calls : Nat)
    (qm : QualityMetrics) (gd : GateDecision)
    (hq : s.quality_metrics = some qm) (hg : s.gate_decision = some gd) :
    ∃ fin, finalize_node s now tok calls = some fin
      ∧ fin.status = pys "completed"
      ∧ fin.retry_count = s.retry_count
      ∧ fin.gate_decision = s.gate_decision
      ∧ ∃ rm, fin.run_metrics = some rm ∧
          rm.status = (if gd.passed then pys "completed" else pys "completed_with_warnings") := by
  unfold finalize_node
  rw [hq, hg]
  exact ⟨_, rfl, rfl, rfl, rfl, _, rfl, rfl⟩

/-- C2 (amended): with `max_retries = 2`, two consecutive judge evaluations
whose gate fails with a retry-eligible failure reason route through the
Retry node exactly twice, reaching `retry_count = 2`, and the third judge
evaluation routes to Finalize regardless of its gate outcome.  When the run
finalizes with the gate still failing, the run-metrics status records
`completed_with_warnings`, while the blackboard status field is set to
`completed` unconditionally.  (The intermediate stage effects are arbitrary
functions that do not write `retry_count`, as in the code.) -/
theorem C2_retry_loop (st : PipelineState) (c1 c2 c3 : CycleOracle) (now tok calls : Nat)
    (h0 : st.retry_count = 0)
    (hstage1 : ∀ s, (c1.stages s).retry_count = s.retry_count)
    (hstage2 : ∀ s, (c2.stages s).retry_count = s.retry_count)
    (hstage3 : ∀ s, (c3.stages s).retry_count = s.retry_count)
    (hf1 : gate_fails_fixable c1.metrics)
    (hf2 : gate_fails_fixable c2.metrics) :
    ∃ fin, runGateLoop st [c1, c2, c3] now tok calls =
        some ([pys "retry", pys "retry", pys "finalize"], fin)
      ∧ fin.retry_count = 2
      ∧ fin.status = pys "completed"
      ∧ (gate_fails c3.metrics →
          ∃ rm, fin.run_metrics = some rm ∧ rm.status = pys "completed_with_warnings") := by
  have e1 : (c1.stages st).retry_count = 0 := by rw [hstage1, h0]
  have r1 : should_retry_check (judge_node (c1.stages st) c1.metrics) = pys "retry" :=
    judge_route_retry _ _ (by omega) hf1
  have e2 : (c2.stages (retry_node (judge_node (c1.stages st) c1.metrics)
      c1.extra)).retry_count = 1 := by
    rw [hstage2, retry_node_retry_count, judge_node_retry_count, e1]
  have r2 : should_retry_check (judge_node (c2.stages (retry_node
      (judge_node (c1.stages st) c1.metrics) c1.extra)) c2.metrics) = pys "retry" :=
    judge_route_retry _ _ (by omega) hf2
  have e3 : (c3.stages (retry_node (judge_node (c2.stages (retry_node
      (judge_node (c1.stages st) c1.metrics) c1.extra)) c2.metrics)
      c2.extra)).retry_count = 2 := by
    rw [hstage3, retry_node_retry_count, judge_node_retry_count, e2]
  have r3 : should_retry_check (judge_node (c3.stages (retry_node (judge_node
      (c2.stages (retry_node (judge_node (c1.stages st) c1.metrics) c1.extra))
      c2.metrics) c2.extra)) c3.metrics) = pys "finalize" :=
    judge_route_finalize _ _ (by omega)
  obtain ⟨fin, hfin, hstat, hrc, hgd, rm, hrm, hrms⟩ :=
    finalize_node_spec (judge_node (c3.stages (retry_node (judge_node
      (c2.stages (retry_node (judge_node (c1.stages st) c1.metrics) c1.extra))
      c2.metrics) c2.extra)) c3.metrics) now tok calls c3.metrics _ rfl rfl
  refine ⟨fin, ?_, ?_, hstat, ?_⟩
  · rw [runGateLoop.eq_def]
    dsimp only
    rw [if_pos r1]
    rw [runGateLoop.eq_def]
    dsimp only
    rw [if_pos r2]
    rw [runGateLoop.eq_def]
    dsimp only
    rw [if_neg (by rw [r3]; decide)]
    rw [hfin]
  · rw [hrc, judge_node_retry_count, e3]
  · intro hgf
    refine ⟨rm, hrm, ?_⟩
    rw [hrms, (evaluate_quality_fields c3.metrics _ _).1, hgf]
    rfl

/-- Without a retry-eligible failure reason, `should_retry` is `false`. -/
theorem should_retry_unfixable (m : QualityMetrics) (v : List Verdict) (rc mr : Nat)
    (hfix : is_fixable (check_quality_gates m settings_min_citation_coverage
      settings_max_unsupported_claims settings_min_fact_confidence).2.1 = false) :
    should_retry (evaluate_quality m v rc) mr = false := by
  unfold should_retry
  by_cases hp : (evaluate_quality m v rc).passed
  · simp [hp]
  · by_cases hrc : (evaluate_quality m v rc).retry_count ≥ mr
    · simp [hp, hrc]
    · simp only [hp, if_false, hrc, if_neg (by exact hrc), Bool.false_eq_true]
      rw [(evaluate_quality_fields m v rc).2.1]
      exact hfix

/-- A judge evaluation whose failure reasons are not retry-eligible routes
to `finalize` even with remaining budget. -/
theorem judge_route_finalize_unfixable (s : PipelineState) (m : QualityMetrics)
    (hfix : is_fixable (check_quality_gates m settings_min_citation_coverage
      settings_max_unsupported_claims settings_min_fact_confidence).2.1 = false) :
    should_retry_check (judge_node s m) = pys "finalize" := by
  unfold should_retry_check
  rw [judge_node_should_retry, should_retry_unfixable m s.verdicts s.retry_count 2 hfix]
  rfl

/-- Metrics failing only the unsupported-claim-rate threshold. -/
def unsupported_fail_metrics : QualityMetrics :=
  { citation_coverage := 98/100
    unsupported_claim_rate := 2/10
    avg_fact_confidence := 85/100
    reading_level := 65
    total_claims := 20
    total_sources := 5
    total_citations := 5 }

/-- On the unsupported-rate example, the gate fails with exactly the
unsupported-rate failure reason. -/
theorem unsupported_fail_metrics_check :
    check_quality_gates unsupported_fail_metrics settings_min_citation_coverage
      settings_max_unsupported_claims settings_min_fact_confidence =
      (false, [unsupported_failure (2/10) (5/100)],
       [pys "Find additional sources for unsupported claims or remove them"]) := by
  norm_num [check_quality_gates, unsupported_fail_metrics, settings_min_citation_coverage,
    settings_max_unsupported_claims, settings_min_fact_confidence]

/-- The rendered unsupported-rate failure string for rate 0.2 against
threshold 0.05. -/
theorem unsupported_failure_value :
    unsupported_failure (2/10) (5/100) =
      pys "Unsupported claim rate 20.0% exceeds threshold 5.0%" := by
  unfold unsupported_failure fmtPct rhe ratFloor
  norm_num
  decide

/-- The unsupported-rate failure reason is not retry-eligible: none of the
fixed issue substrings occurs in it (the needle "unsupported claims" does
not occur in "unsupported claim rate ..."). -/
theorem unsupported_not_fixable :
    is_fixable [unsupported_failure (2/10) (5/100)] = false := by
  rw [unsupported_failure_value]
  decide

/-- The gate failure of the coverage example is retry-eligible. -/
theorem coverage_fail_metrics_fixable : gate_fails_fixable coverage_fail_metrics := by
  constructor
  · unfold gate_fails
    rw [coverage_fail_metrics_check]
  · rw [coverage_fail_metrics_check]
    simp [is_fixable, fixable_issues, fixable_coverage]

/-- A minimal initial blackboard, as `create_initial_state` builds it. -/
def st0 : PipelineState :=
  { run_id := pys "run-1"
    topic_spec := { topic := pys "t", audience := pys "a", goals := [], keywords := [] }
    started_at := 0
    outline := none
    source_pack := { sources := [], search_queries := [] }
    indexed_chunks := 0
    draft_sections := []
    verdicts := []
    article := none
    seo_metadata := none
    gate_decision := none
    quality_metrics := none
    retry_count := 0
    should_retry := false
    artifacts := []
    logs := []
    run_metrics := none
    completed_at := none
    status := pys "running"
    error := none }

/-- A cycle whose judge sees a retry-eligible coverage failure. -/
def failing_cycle : CycleOracle :=
  { stages := id, metrics := coverage_fail_metrics,
    extra := { sources := [], search_queries := [] } }

/-- A cycle whose judge sees only an unsupported-rate failure (failing but
not retry-eligible). -/
def unsupported_cycle : CycleOracle :=
  { stages := id, metrics := unsupported_fail_metrics,
    extra := { sources := [], search_queries := [] } }

/-- Witness for C2 (amended): a concrete run with three consecutive
coverage-failing judge evaluations. -/
theorem C2_retry_loop_witness :
    ∃ fin, runGateLoop st0 [failing_cycle, failing_cycle, failing_cycle] 100 0 0 =
        some ([pys "retry", pys "retry", pys "finalize"], fin)
      ∧ fin.retry_count = 2
      ∧ fin.status = pys "completed"
      ∧ (gate_fails failing_cycle.metrics →
          ∃ rm, fin.run_metrics = some rm ∧ rm.status = pys "completed_with_warnings") :=
  C2_retry_loop st0 failing_cycle failing_cycle failing_cycle 100 0 0 rfl
    (fun _ => rfl) (fun _ => rfl) (fun _ => rfl)
    coverage_fail_metrics_fixable coverage_fail_metrics_fixable

/-- Counterexample to C2 as stated: (a) a run whose gate fails on every
judge evaluation (unsupported-rate only) finalizes immediately with zero
retries, because that failure reason is not retry-eligible; (b) a run that
does exhaust its two retries with the gate still failing ends with the
blackboard terminal status `"completed"`, not `"completed_with_warnings"`
(only the run-metrics record carries the warning status). -/
theorem C2_counterexample :
    (∃ fin, runGateLoop st0 [unsupported_cycle, unsupported_cycle, unsupported_cycle] 100 0 0 =
        some ([pys "finalize"], fin)
      ∧ fin.retry_count = 0
      ∧ gate_fails unsupported_cycle.metrics)
    ∧ (∃ fin, runGateLoop st0 [failing_cycle, failing_cycle, failing_cycle] 100 0 0 =
        some ([pys "retry", pys "retry", pys "finalize"], fin)
      ∧ gate_fails failing_cycle.metrics
      ∧ (∃ d, fin.gate_decision = some d ∧ d.passed = false)
      ∧ fin.status ≠ pys "completed_with_warnings") := by
  constructor
  · have hufix : is_fixable (check_quality_gates unsupported_cycle.metrics
        settings_min_citation_coverage settings_max_unsupported_claims
        settings_min_fact_confidence).2.1 = false := by
      show is_fixable (check_quality_gates unsupported_fail_metrics
        settings_min_citation_coverage settings_max_unsupported_claims
        settings_min_fact_confidence).2.1 = false
      rw [unsupported_fail_metrics_check]
      exact unsupported_not_fixable
    have ru : should_retry_check (judge_node (unsupported_cycle.stages st0)
        unsupported_cycle.metrics) = pys "finalize" :=
      judge_route_finalize_unfixable _ _ hufix
    obtain ⟨fin, hfin, hstat, hrc, hgd, rm, hrm, hrms⟩ :=
      finalize_node_spec (judge_node (unsupported_cycle.stages st0)
        unsupported_cycle.metrics) 100 0 0 unsupported_cycle.metrics _ rfl rfl
    refine ⟨fin, ?_, ?_, ?_⟩
    · rw [runGateLoop.eq_def]
      dsimp only
      rw [if_neg (by rw [ru]; decide), hfin]
    · rw [hrc, judge_node_retry_count]
      rfl
    · show gate_fails unsupported_fail_metrics
      unfold gate_fails
      rw [unsupported_fail_metrics_check]
  · have e1 : (failing_cycle.stages st0).retry_count = 0 := rfl
    have r1 : should_retry_check (judge_node (failing_cycle.stages st0)
        failing_cycle.metrics) = pys "retry" :=
      judge_route_retry _ _ (by omega) coverage_fail_metrics_fixable
    have e2 : (failing_cycle.stages (retry_node (judge_node (failing_cycle.stages st0)
        failing_cycle.metrics) failing_cycle.extra)).retry_count = 1 := by
      show (retry_node _ _).retry_count = 1
      rw [retry_node_retry_count, judge_node_retry_count, e1]
    have r2 : should_retry_check (judge_node (failing_cycle.stages (retry_node
        (judge_node (failing_cycle.stages st0) failing_cycle.metrics)
        failing_cycle.extra)) failing_cycle.metrics) = pys "retry" :=
      judge_route_retry _ _ (by omega) coverage_fail_metrics_fixable
    have e3 : (failing_cycle.stages (retry_node (judge_node (failing_cycle.stages
        (retry_node (judge_node (failing_cycle.stages st0) failing_cycle.metrics)
        failing_cycle.extra)) failing_cycle.metrics) failing_cycle.extra)).retry_count = 2 := by
      show (retry_node _ _).retry_count = 2
      rw [retry_node_retry_count, judge_node_retry_count, e2]
    have r3 : should_retry_check (judge_node (failing_cycle.stages (retry_node
        (judge_node (failing_cycle.stages (retry_node (judge_node
        (failing_cycle.stages st0) failing_cycle.metrics) failing_cycle.extra))
        failing_cycle.metrics) failing_cycle.extra)) failing_cycle.metrics) =
        pys "finalize" :=
      judge_route_finalize _ _ (by omega)
    obtain ⟨fin, hfin, hstat, hrc, hgd, rm, hrm, hrms⟩ :=
      finalize_node_spec (judge_node (failing_cycle.stages (retry_node
        (judge_node (failing_cycle.stages (retry_node (judge_node
        (failing_cycle.stages st0) failing_cycle.metrics) failing_cycle.extra))
        failing_cycle.metrics) failing_cycle.extra)) failing_cycle.metrics)
        100 0 0 failing_cycle.metrics _ rfl rfl
    refine ⟨fin, ?_, ?_, ?_, ?_⟩
    · rw [runGateLoop.eq_def]
      dsimp only
      rw [if_pos r1]
      rw [runGateLoop.eq_def]
      dsimp only
      rw [if_pos r2]
      rw [runGateLoop.eq_def]
      dsimp only
      rw [if_neg (by rw [r3]; decide)]
      rw [hfin]
    · show gate_fails coverage_fail_metrics
      unfold gate_fails
      rw [coverage_fail_metrics_check]
    · refine ⟨_, by rw [hgd]; rfl, ?_⟩
      rw [(evaluate_quality_fields failing_cycle.metrics _ _).1]
      show (check_quality_gates coverage_fail_metrics settings_min_citation_coverage
        settings_max_unsupported_claims settings_min_fact_confidence).1 = false
      rw [coverage_fail_metrics_check]
    · rw [hstat]
      decide

/-! ## Source-deduplication theorems -/

/-- Unfolding: a source with fresh hash and id is kept. -/
theorem dedup_aux_cons_pos (s : Source) (rest : List Source) (hs is : List PyStr)
    (h : s.content_hash ∉ hs ∧ s.source_id ∉ is) :
    dedup_aux (s :: rest) hs is =
      s :: dedup_aux rest (s.content_hash :: hs) (s.source_id :: is) := by
  unfold dedup_aux
  rw [if_pos h]
  cases rest <;> rfl

/-- Unfolding: a source with a seen hash or id is dropped. -/
theorem dedup_aux_cons_neg (s : Source) (rest : List Source) (hs is : List PyStr)
    (h : ¬(s.content_hash ∉ hs ∧ s.source_id ∉ is)) :
    dedup_aux (s :: rest) hs is = dedup_aux rest hs is := by
  unfold dedup_aux
  rw [if_neg h]
  cases rest <;> rfl

/-- Deduplication only drops elements, preserving relative order. -/
theorem dedup_aux_sublist :
    ∀ (l : List Source) (hs is : List PyStr), (dedup_aux l hs is).Sublist l := by
  intro l
  induction l with
  | nil => intro hs is; exact List.Sublist.refl _
  | cons s rest ih =>
    intro hs is
    by_cases h : s.content_hash ∉ hs ∧ s.source_id ∉ is
    · rw [dedup_aux_cons_pos s rest hs is h]
      exact (ih _ _).cons₂ s
    · rw [dedup_aux_cons_neg s rest hs is h]
      exact (ih _ _).cons s

/-- Every kept source has a hash and id outside the accumulators. -/
theorem dedup_aux_fresh :
    ∀ (l : List Source) (hs is : List PyStr) (x : Source),
      x ∈ dedup_aux l hs is → x.content_hash ∉ hs ∧ x.source_id ∉ is := by
  intro l
  induction l with
  | nil => intro hs is x hx; simp [dedup_aux] at hx
  | cons s rest ih =>
    intro hs is x hx
    by_cases h : s.content_hash ∉ hs ∧ s.source_id ∉ is
    · rw [dedup_aux_cons_pos s rest hs is h] at hx
      rcases List.mem_cons.mp hx with heq | hmem
      · subst heq; exact h
      · have hf := ih _ _ x hmem
        exact ⟨fun hin => hf.1 (List.mem_cons_of_mem _ hin),
               fun hin => hf.2 (List.mem_cons_of_mem _ hin)⟩
    · rw [dedup_aux_cons_neg s rest hs is h] at hx
      exact ih _ _ x hx

/-- Kept sources have pairwise-distinct content hashes. -/
theorem dedup_aux_hash_nodup :
    ∀ (l : List Source) (hs is : List PyStr),
      ((dedup_aux l hs is).map (fun s => s.content_hash)).Nodup := by
  intro l
  induction l with
  | nil => intro hs is; simp [dedup_aux]
  | cons s rest ih =>
    intro hs is
    by_cases h : s.content_hash ∉ hs ∧ s.source_id ∉ is
    · rw [dedup_aux_cons_pos s rest hs is h]
      simp only [List.map_cons, List.nodup_cons]
      refine ⟨?_, ih _ _⟩
      intro hmem
      obtain ⟨y, hy, hyh⟩ := List.mem_map.mp hmem
      exact (dedup_aux_fresh _ _ _ y hy).1 (hyh ▸ List.mem_cons_self _ _)
    · rw [dedup_aux_cons_neg s rest hs is h]
      exact ih _ _

/-- Kept sources have pairwise-distinct source ids. -/
theorem dedup_aux_id_nodup :
    ∀ (l : List Source) (hs is : List PyStr),
      ((dedup_aux l hs is).map (fun s => s.source_id)).Nodup := by
  intro l
  induction l with
  | nil => intro hs is; simp [dedup_aux]
  | cons s rest ih =>
    intro hs is
    by_cases h : s.content_hash ∉ hs ∧ s.source_id ∉ is
    · rw [dedup_aux_cons_pos s rest hs is h]
      simp only [List.map_cons, List.nodup_cons]
      refine ⟨?_, ih _ _⟩
      intro hmem
      obtain ⟨y, hy, hyh⟩ := List.mem_map.mp hmem
      exact (dedup_aux_fresh _ _ _ y hy).2 (hyh ▸ List.mem_cons_self _ _)
    · rw [dedup_aux_cons_neg s rest hs is h]
      exact ih _ _

/-- Deduplicating an already-deduplicated list changes nothing. -/
theorem dedup_aux_idem :
    ∀ (l : List Source) (hs is : List PyStr),
      dedup_aux (dedup_aux l hs is) hs is = dedup_aux l hs is := by
  intro l
  induction l with
  | nil => intro hs is; rfl
  | cons s rest ih =>
    intro hs is
    by_cases h : s.content_hash ∉ hs ∧ s.source_id ∉ is
    · rw [dedup_aux_cons_pos s rest hs is h, dedup_aux_cons_pos s _ hs is h]
      congr 1
      exact ih _ _
    · rw [dedup_aux_cons_neg s rest hs is h]
      exact ih _ _

/-- A source with hash h1 and id i1. -/
def srcA : Source :=
  { source_id := pys "i1", url := pys "u1", title := pys "T1", author := none,
    published_date := none, content_hash := pys "h1", fetch_date := pys "2024-01-01" }

/-- A source sharing `srcA`'s hash but with the new id i2. -/
def srcB : Source :=
  { source_id := pys "i2", url := pys "u2", title := pys "T2", author := none,
    published_date := none, content_hash := pys "h1", fetch_date := pys "2024-01-01" }

/-- A source with the new hash h2 but sharing `srcB`'s id i2. -/
def srcC : Source :=
  { source_id := pys "i2", url := pys "u3", title := pys "T3", author := none,
    published_date := none, content_hash := pys "h2", fetch_date := pys "2024-01-01" }

/-- Counterexample to C10 as stated: on `[srcA, srcB, srcC]` the function
returns `[srcA, srcC]` — it drops `srcB`, the first occurrence of source id
"i2" (because its hash was already seen), and keeps `srcC`, a later
occurrence of that same id.  So the output is not "exactly the first
occurrence of each content_hash and each source_id". -/
theorem C10_counterexample :
    deduplicate_sources [srcA, srcB, srcC] = [srcA, srcC]
    ∧ srcB.source_id = srcC.source_id
    ∧ srcA.source_id ≠ srcB.source_id
    ∧ srcB ∉ deduplicate_sources [srcA, srcB, srcC]
    ∧ srcB ≠ srcC := by decide

/-- C10 (amended): `deduplicate_sources` keeps a source iff both its
content hash and its source id differ from those of every previously kept
source; hence its output is a sublist of the input (relative order
preserved, nothing reordered or invented), kept hashes and kept ids are
pairwise distinct, and the function is idempotent. -/
theorem C10_dedup_props (l : List Source) :
    (deduplicate_sources l).Sublist l
    ∧ ((deduplicate_sources l).map (fun s => s.content_hash)).Nodup
    ∧ ((deduplicate_sources l).map (fun s => s.source_id)).Nodup
    ∧ deduplicate_sources (deduplicate_sources l) = deduplicate_sources l :=
  ⟨dedup_aux_sublist l [] [], dedup_aux_hash_nodup l [] [],
   dedup_aux_id_nodup l [] [], dedup_aux_idem l [] []⟩

/-! ## Citation-map theorems -/

/-- The bibliography loop assigns consecutive ids from its start index. -/
theorem build_bibliography_ids :
    ∀ (sources : List Source) (i : Nat),
      (build_bibliography sources i).map (fun c => c.citation_id) =
        List.range' i sources.length := by
  intro sources
  induction sources with
  | nil => intro i; rfl
  | cons s rest ih =>
    intro i
    simp only [build_bibliography, List.map_cons, List.length_cons, List.range'_succ]
    rw [ih]

/-- The bibliography loop preserves the source ids in order. -/
theorem build_bibliography_source_ids :
    ∀ (sources : List Source) (i : Nat),
      (build_bibliography sources i).map (fun c => c.source_id) =
        sources.map (fun s => s.source_id) := by
  intro sources
  induction sources with
  | nil => intro i; rfl
  | cons s rest ih =>
    intro i
    simp only [build_bibliography, List.map_cons]
    rw [ih]

/-- Decomposition of a successful `create_citation_map` call into its
sentence list, mappings, coverage and bibliography. -/
theorem create_citation_map_fields (text : PyStr) (sources : List Source)
    (phrases : List PyStr) (cm : CitationMap)
    (h : create_citation_map text sources phrases = some cm) :
    ∃ sentences, split_into_sentences text = some sentences
      ∧ cm.bibliography = build_bibliography sources 1
      ∧ cm.sentence_mappings = (build_mappings text phrases sentences).1
      ∧ cm.coverage_rate = (if sentences.length > 0 then
          ((build_mappings text phrases sentences).2 : ℚ) / (sentences.length : ℚ)
        else 0) := by
  unfold create_citation_map at h
  cases hs : split_into_sentences text with
  | none => rw [hs] at h; simp at h
  | some sentences =>
    rw [hs] at h
    dsimp only at h
    have h2 := Option.some.inj h
    exact ⟨sentences, rfl, by rw [← h2], by rw [← h2], by rw [← h2]⟩

/-- C4: the bibliography built by `create_citation_map` has exactly N
entries whose citation ids are 1..N in the order of the input source list,
the i-th entry carrying the i-th source's id. -/
theorem C4_bibliography (text : PyStr) (sources : List Source)
    (phrases : List PyStr) (cm : CitationMap)
    (h : create_citation_map text sources phrases = some cm) :
    cm.bibliography.map (fun c => c.citation_id) = List.range' 1 sources.length
    ∧ cm.bibliography.map (fun c => c.source_id) = sources.map (fun s => s.source_id)
    ∧ cm.bibliography.length = sources.length := by
  obtain ⟨sentences, hs, hb, hm, hc⟩ := create_citation_map_fields text sources phrases cm h
  rw [hb]
  refine ⟨build_bibliography_ids sources 1, build_bibliography_source_ids sources 1, ?_⟩
  have hlen := congrArg List.length (build_bibliography_ids sources 1)
  simpa using hlen

/-- Witness for C4 at a concrete call with two sources. -/
theorem C4_bibliography_witness :
    ∃ cm, create_citation_map (pys "Hi.") [srcA, srcB] [] = some cm
      ∧ cm.bibliography.map (fun c => c.citation_id) = List.range' 1 2
      ∧ cm.bibliography.map (fun c => c.source_id) = [pys "i1", pys "i2"]
      ∧ cm.bibliography.length = 2 := by
  obtain ⟨h1, h2, h3⟩ := C4_bibliography (pys "Hi.") [srcA, srcB] [] _ rfl
  exact ⟨_, rfl, h1, by rw [h2]; decide, h3⟩

/-- Each input sentence yields exactly one sentence mapping. -/
theorem build_mappings_len (text : PyStr) (phrases : List PyStr) :
    ∀ sentences, (build_mappings text phrases sentences).1.length = sentences.length := by
  intro sentences
  induction sentences with
  | nil => rfl
  | cons x rest ih =>
    obtain ⟨sentence, start, endc⟩ := x
    simp only [build_mappings, List.length_cons]
    rw [ih]

/-- The cited-sentence counter counts exactly the mappings that carry a
citation id or the common-knowledge flag. -/
theorem build_mappings_count (text : PyStr) (phrases : List PyStr) :
    ∀ sentences, (build_mappings text phrases sentences).2 =
      (build_mappings text phrases sentences).1.countP
        (fun m => !m.citation_ids.isEmpty || m.is_common_knowledge) := by
  intro sentences
  induction sentences with
  | nil => rfl
  | cons x rest ih =>
    obtain ⟨sentence, start, endc⟩ := x
    simp only [build_mappings, List.countP_cons, ih]
    rw [Nat.add_comm]

/-- C5: the coverage rate of a successful `create_citation_map` call is the
number of sentences carrying at least one citation id or the
common-knowledge flag divided by the total number of sentences; with no
sentences (in particular for empty text, which raises no error) it is 0. -/
theorem C5_coverage (text : PyStr) (sources : List Source) (phrases : List PyStr)
    (cm : CitationMap) (h : create_citation_map text sources phrases = some cm) :
    cm.coverage_rate = (if cm.sentence_mappings.length > 0 then
        ((cm.sentence_mappings.countP
            (fun m => !m.citation_ids.isEmpty || m.is_common_knowledge) : ℚ) /
          (cm.sentence_mappings.length : ℚ))
      else 0)
    ∧ (cm.sentence_mappings = [] → cm.coverage_rate = 0)
    ∧ (∃ cm0, create_citation_map ([] : PyStr) sources phrases = some cm0
        ∧ cm0.coverage_rate = 0 ∧ cm0.sentence_mappings = []) := by
  obtain ⟨sentences, hs, hb, hm, hc⟩ := create_citation_map_fields text sources phrases cm h
  refine ⟨?_, ?_, ?_⟩
  · rw [hc, hm, build_mappings_len, ← build_mappings_count]
  · intro hnil
    have hlen : sentences.length = 0 := by
      rw [← build_mappings_len text phrases sentences, ← hm, hnil]
      rfl
    rw [hc, hlen]
    norm_num
  · refine ⟨_, rfl, ?_, rfl⟩
    norm_num [create_citation_map, split_into_sentences, scanMatches, attach_offsets,
      build_mappings]

/-- Witness for C5 at a concrete call: "A [1]. B." against one source has
two sentences, one cited, so coverage 1/2. -/
theorem C5_coverage_witness :
    ∃ cm, create_citation_map (pys "A [1]. B.") [srcA] [] = some cm
      ∧ cm.coverage_rate = (if cm.sentence_mappings.length > 0 then
          ((cm.sentence_mappings.countP
              (fun m => !m.citation_ids.isEmpty || m.is_common_knowledge) : ℚ) /
            (cm.sentence_mappings.length : ℚ))
        else 0)
      ∧ (cm.sentence_mappings = [] → cm.coverage_rate = 0) := by
  obtain ⟨h1, h2, _⟩ := C5_coverage (pys "A [1]. B.") [srcA] [] _ rfl
  exact ⟨_, rfl, h1, h2⟩

/-! ## Citation-validator theorems -/

/-- Length of a `flatMap` as the sum of the piece lengths. -/
theorem length_flatMap_aux {α β : Type} (f : α → List β) :
    ∀ l : List α, (l.flatMap f).length = (l.map (fun a => (f a).length)).sum := by
  intro l
  induction l with
  | nil => rfl
  | cons a t ih => simp [List.flatMap_cons, ih]

/-- C7: `validate_citations` returns one issue per occurrence of a citation
id missing from the bibliography (each rendered with the offending id and a
truncated sentence excerpt) plus at most one aggregate issue counting the
sentences that carry neither a citation id nor the common-knowledge flag;
on `"Cited [1]. Bad [99]."` against one source it returns exactly one
invalid-id issue naming 99. -/
theorem C7_validate (cm : CitationMap) :
    (validate_citations cm).length =
      (cm.sentence_mappings.map (fun m =>
        (m.citation_ids.filter
          (fun cid => cid ∉ cm.bibliography.map (fun c => c.citation_id))).length)).sum
      + (if (cm.sentence_mappings.filter
            (fun m => m.citation_ids.isEmpty && !m.is_common_knowledge)).length ≠ 0
         then 1 else 0)
    ∧ (∀ m ∈ cm.sentence_mappings, ∀ cid ∈ m.citation_ids,
        cid ∉ cm.bibliography.map (fun c => c.citation_id) →
        invalid_id_issue cid m.sentence ∈ validate_citations cm)
    ∧ (∃ cm0, create_citation_map (pys "Cited [1]. Bad [99].") [srcA] [] = some cm0
        ∧ validate_citations cm0 = [invalid_id_issue 99 (pys "Bad [99].")]
        ∧ invalid_id_issue 99 (pys "Bad [99].") =
            pys "Invalid citation ID [99] in sentence: Bad [99]....") := by
  refine ⟨?_, ?_, ⟨_, rfl, by decide, by decide⟩⟩
  · unfold validate_citations
    by_cases hu : (cm.sentence_mappings.filter
        (fun m => m.citation_ids.isEmpty && !m.is_common_knowledge)).length ≠ 0
    · simp only [if_pos hu, List.length_append, List.length_cons, List.length_nil,
        length_flatMap_aux, List.length_map]
    · simp only [if_neg hu, length_flatMap_aux, List.length_map, Nat.add_zero]
  · intro m hm cid hcid hnot
    unfold validate_citations
    have hmem : invalid_id_issue cid m.sentence ∈
        cm.sentence_mappings.flatMap (fun m =>
          (m.citation_ids.filter
            (fun cid => cid ∉ cm.bibliography.map (fun c => c.citation_id))).map
            (fun cid => invalid_id_issue cid m.sentence)) :=
      List.mem_flatMap.mpr ⟨m, hm, List.mem_map.mpr
        ⟨cid, List.mem_filter.mpr ⟨hcid, by simpa using hnot⟩, rfl⟩⟩
    by_cases hu : (cm.sentence_mappings.filter
        (fun m => m.citation_ids.isEmpty && !m.is_common_knowledge)).length ≠ 0
    · rw [if_pos hu]
      exact List.mem_append_left _ hmem
    · rw [if_neg hu]
      exact hmem

/-! ## Sentence-segmentation theorems -/

/-- Every match emitted by the sentence scanner decomposes into a nonempty
run of non-terminators followed by a nonempty run of terminators, provided
the pending accumulators satisfy the scanner's invariants. -/
theorem scanAux_shape :
    ∀ (l nt tm : List Char),
      (∀ c ∈ nt, isTerm c = false) → (∀ c ∈ tm, isTerm c = true) →
      (tm ≠ [] → nt ≠ []) →
      ∀ m ∈ scanAux l nt tm,
        ∃ a b, m = a ++ b ∧ a ≠ [] ∧ b ≠ [] ∧
          (∀ c ∈ a, isTerm c = false) ∧ (∀ c ∈ b, isTerm c = true) := by
  intro l
  induction l with
  | nil =>
    intro nt tm hnt htm himp m hm
    unfold scanAux at hm
    by_cases hcond : (!nt.isEmpty && !tm.isEmpty) = true
    · rw [if_pos hcond] at hm
      rcases List.mem_singleton.mp hm with heq
      rw [Bool.and_eq_true, Bool.not_eq_true', Bool.not_eq_true',
        List.isEmpty_eq_false, List.isEmpty_eq_false] at hcond
      refine ⟨nt.reverse, tm.reverse, heq, ?_, ?_, ?_, ?_⟩
      · simpa using hcond.1
      · simpa using hcond.2
      · intro c hc; exact hnt c (List.mem_reverse.mp hc)
      · intro c hc; exact htm c (List.mem_reverse.mp hc)
    · rw [if_neg hcond] at hm
      simp at hm
  | cons c rest ih =>
    intro nt tm hnt htm himp m hm
    unfold scanAux at hm
    by_cases hc : isTerm c = true
    · rw [if_pos hc] at hm
      by_cases hnte : nt.isEmpty = true
      · rw [if_pos hnte] at hm
        exact ih [] [] (by simp) (by simp) (by simp) m hm
      · rw [if_neg hnte] at hm
        refine ih nt (c :: tm) hnt ?_ ?_ m hm
        · intro x hx
          rcases List.mem_cons.mp hx with heq | hmem
          · subst heq; exact hc
          · exact htm x hmem
        · intro _
          exact fun hn => hnte (by rw [hn]; rfl)
    · rw [if_neg hc] at hm
      by_cases htme : tm.isEmpty = true
      · rw [if_pos htme] at hm
        refine ih (c :: nt) [] ?_ (by simp) (by simp) m hm
        intro x hx
        rcases List.mem_cons.mp hx with heq | hmem
        · subst heq; simpa using hc
        · exact hnt x hmem
      · rw [if_neg htme] at hm
        rcases List.mem_cons.mp hm with heq | hmem
        · have htmne : tm ≠ [] := fun hn => htme (by rw [hn]; rfl)
          have hntne : nt ≠ [] := himp htmne
          refine ⟨nt.reverse, tm.reverse, heq, ?_, ?_, ?_, ?_⟩
          · simpa using hntne
          · simpa using htmne
          · intro x hx; exact hnt x (List.mem_reverse.mp hx)
          · intro x hx; exact htm x (List.mem_reverse.mp hx)
        · refine ih [c] [] ?_ (by simp) (by simp) m hmem
          intro x hx
          rcases List.mem_cons.mp hx with heq | hmem'
          · subst heq; simpa using hc
          · simp at hmem'

/-- `sorted(set(xs))` is strictly increasing. -/
theorem pySortedSet_sorted (xs : List Nat) :
    List.Sorted (· < ·) (pySortedSet xs) := by
  have hs : List.Sorted (· ≤ ·) (pySortedSet xs) :=
    List.sorted_insertionSort _ _
  have hn : (pySortedSet xs).Nodup :=
    ((List.perm_insertionSort (· ≤ ·) xs.dedup).symm).nodup (List.nodup_dedup xs)
  exact hs.lt_of_le hn

/-- Every produced sentence mapping stores its citation ids strictly
ascending (deduplicated and sorted). -/
theorem build_mappings_sorted (text : PyStr) (phrases : List PyStr) :
    ∀ sentences, ∀ m ∈ (build_mappings text phrases sentences).1,
      List.Sorted (· < ·) m.citation_ids := by
  intro sentences
  induction sentences with
  | nil => intro m hm; simp [build_mappings] at hm
  | cons x rest ih =>
    obtain ⟨sentence, start, endc⟩ := x
    intro m hm
    simp only [build_mappings] at hm
    rcases List.mem_cons.mp hm with heq | hmem
    · subst heq
      exact pySortedSet_sorted _
    · exact ih m hmem

/-- Counterexample to C6 as stated: on `"a.b"` the code splits after the
`.` even though it is followed by `b`, not whitespace or end-of-text, so it
produces two sentences where the spec's boundary rule produces one. -/
theorem C6_counterexample :
    split_into_sentences (pys "a.b") = some [(pys "a.", 0, 2), (pys "b", 2, 3)]
    ∧ spec_split_sentences (pys "a.b") = [(pys "a.b", 0, 3)]
    ∧ split_into_sentences (pys "a.b") ≠ some (spec_split_sentences (pys "a.b")) := by
  decide

/-- C6 (amended): the mapper splits at every maximal run of terminal `.`,
`!`, `?` characters regardless of the following character (each regex match
is a nonempty non-terminator run followed by a nonempty terminator run),
records character offsets, and stores each sentence's marker ids collected,
deduplicated and sorted ascending. -/
theorem C6_segmentation (text : PyStr) (sources : List Source) (phrases : List PyStr)
    (cm : CitationMap) (h : create_citation_map text sources phrases = some cm) :
    (∀ m ∈ cm.sentence_mappings, List.Sorted (· < ·) m.citation_ids)
    ∧ (∀ m ∈ scanMatches text, ∃ a b, m = a ++ b ∧ a ≠ [] ∧ b ≠ [] ∧
        (∀ c ∈ a, isTerm c = false) ∧ (∀ c ∈ b, isTerm c = true))
    ∧ split_into_sentences (pys "a.b") = some [(pys "a.", 0, 2), (pys "b", 2, 3)]
    ∧ (∃ cm1, create_citation_map (pys "X [3][1][3,2].") [srcA] [] = some cm1
        ∧ cm1.sentence_mappings.map (fun m => m.citation_ids) = [[1, 2, 3]]) := by
  obtain ⟨sentences, hs, hb, hm, hc⟩ := create_citation_map_fields text sources phrases cm h
  refine ⟨?_, ?_, by decide, ⟨_, rfl, by decide⟩⟩
  · rw [hm]
    exact build_mappings_sorted text phrases sentences
  · exact fun m hm' => scanAux_shape text [] [] (by simp) (by simp) (by simp) m hm'

/-- Witness for C6 (amended) at a concrete call. -/
theorem C6_segmentation_witness :
    ∃ cm, create_citation_map (pys "a.b") [srcA] [] = some cm
      ∧ (∀ m ∈ cm.sentence_mappings, List.Sorted (· < ·) m.citation_ids)
      ∧ split_into_sentences (pys "a.b") = some [(pys "a.", 0, 2), (pys "b", 2, 3)] := by
  obtain ⟨h1, _, h3, _⟩ := C6_segmentation (pys "a.b") [srcA] [] _ rfl
  exact ⟨_, rfl, h1, h3⟩

end R2B
